import Mathlib

/-!
Verification of the crypto-ml-platform data pipeline.

The JavaScript sources are shallowly embedded over exact rationals: every
numeric value of the program is modelled as a `ℚ`, and the floating-point
square root `Math.sqrt` is modelled as an opaque parameter `s : ℚ → ℚ`
threaded through the definitions that call it (volatility, normalization
standard deviations, RMSE).  Fallible operations (`throw`) are modelled with
`Except String`.  Record fields that no modelled operation reads (dates,
high/low/open/close) are omitted from the embedded data model.

The repository contains two inconsistent variants of the feature pipeline;
both are embedded: namespace `DP1` is the optimized `DataProcessor` of
src/js/dataProcessor.js (array-at-once indicators, smoothed RSI), and
namespace `DP2` is the real-data `DataProcessor` of src/unnamed/part_001
lines 1019-1301 (per-index indicators, simple-average RSI, warm-up 14).
-/

namespace CryptoML

/-- Raw observation of the series: price and volume
(src/js/dataProcessor.js `generateRealisticData`, src/unnamed/part_001). -/
structure RawPoint where
  price : ℚ
  volume : ℚ
deriving DecidableEq

/-- Processed feature vector with its next-step target and source price
(the objects pushed onto `this.processedData`). -/
structure FeatureRow where
  features : List ℚ
  target : ℚ
  price : ℚ
deriving DecidableEq

instance : Inhabited FeatureRow := ⟨⟨[], 0, 0⟩⟩

/-- Normalization parameters `this.scaler = { means, stds }`
(src/js/dataProcessor.js lines 435-463). -/
structure Scaler where
  means : List ℚ
  stds : List ℚ
deriving DecidableEq

/-- Embedding of `splitData` (src/js/dataProcessor.js lines 478-484 and the
`splitData(trainRatio = 0.8)` variant in src/js/main.js lines 623-633):
`splitIndex = Math.floor(length * ratio)` followed by
`slice(0, splitIndex)` / `slice(splitIndex)`.  The JS slice is modelled for
the non-negative indices produced at every call site (the ratio is 0.8). -/
def splitData {α : Type} (data : List α) (r : ℚ) : List α × List α :=
  let splitIndex := (⌊(data.length : ℚ) * r⌋).toNat
  (data.take splitIndex, data.drop splitIndex)

/-- Embedding of the minimum-partition guard in `MLPlatform.trainModel`
(src/js/main.js lines 128-132): after `splitData`, training aborts with
an insufficient-data error when the train partition has fewer than 10
vectors or the test partition fewer than 5. -/
def trainSplitStep (data : List FeatureRow) :
    Except String (List FeatureRow × List FeatureRow) :=
  let p := splitData data (4/5)
  if p.1.length < 10 ∨ p.2.length < 5 then
    Except.error "Insufficient data for training. Need at least 15 data points."
  else
    Except.ok p

/-- Performance metrics returned by `ModelBuilder.calculateMetrics`
(src/unnamed/part_000 lines 209-247).  The source field `rmse` is
`Math.sqrt(mse)`; the floating-point square root is the opaque parameter
`s` of `calculateMetrics`. -/
structure Metrics where
  mae : ℚ
  mse : ℚ
  rmse : ℚ
  r2 : ℚ
  accuracy : ℚ
  sampleSize : ℕ
deriving DecidableEq

/-- Embedding of `ModelBuilder.calculateMetrics` (src/unnamed/part_000 lines
209-247).  The source accumulates `mae`, `mse` and `totalSq` in a single
loop over `i < predictions.length` after precomputing
`meanActual = actuals.reduce(...) / n` with `n = predictions.length`; the
loop is modelled by a left fold over the zipped sequences (exact for the
equal-length inputs of the contract). -/
def calculateMetrics (s : ℚ → ℚ) (predictions actuals : List ℚ) : Metrics :=
  let n : ℕ := predictions.length
  let meanActual : ℚ := actuals.sum / (n : ℚ)
  let acc :=
    (predictions.zip actuals).foldl
      (fun (a : ℚ × ℚ × ℚ) pa =>
        (a.1 + |pa.1 - pa.2|, a.2.1 + (pa.1 - pa.2) ^ 2,
         a.2.2 + (pa.2 - meanActual) ^ 2))
      (0, 0, 0)
  let mae := acc.1 / (n : ℚ)
  let mse := acc.2.1 / (n : ℚ)
  let totalSq := acc.2.2
  let r2 := if totalSq = 0 then 0 else 1 - (mse * (n : ℚ)) / totalSq
  let rmse := s mse
  let accuracy := max 0 ((1 - mae / meanActual) * 100)
  ⟨mae, mse, rmse, r2, accuracy, n⟩

/-- Embedding of `ModelBuilder.evaluateModel` (src/unnamed/part_000 lines
182-204): it throws only when `this.model` is null, and otherwise hands the
prediction and actual arrays to `calculateMetrics` with no further
validation. -/
def evaluateModel (s : ℚ → ℚ) (model : Option ℕ)
    (predictions actuals : List ℚ) : Except String Metrics :=
  match model with
  | none => Except.error "No model available for evaluation"
  | some _ => Except.ok (calculateMetrics s predictions actuals)

/-! Resource model of `ModelBuilder` (src/unnamed/part_000).  The tensor
library contract (spec section 6) is an allocate/release discipline:
`tf.sequential` allocates a backend model that stays live until its explicit
`dispose()`.  The state tracks `this.model` (the id of the currently
referenced model, if any) and the list of live, not-yet-disposed backend
models, with `next` a fresh-id counter. -/

/-- State of `ModelBuilder` plus the tensor backend allocation set. -/
structure BuilderState where
  current : Option ℕ
  live : List ℕ
  next : ℕ
deriving DecidableEq

/-- Initial state: `this.model = null`, nothing allocated
(src/unnamed/part_000 lines 7-10). -/
def initBuilder : BuilderState := ⟨none, [], 0⟩

/-- Embedding of `ModelBuilder.buildModel` via `buildNeuralNetwork` /
`buildDeepNetwork` / `buildLSTMNetwork` (src/unnamed/part_000 lines 15-125):
every branch executes `this.model = tf.sequential({...})`, overwriting the
`this.model` reference with a freshly allocated model WITHOUT disposing the
previously referenced one. -/
def buildModel (st : BuilderState) : BuilderState :=
  { current := some st.next, live := st.live ++ [st.next], next := st.next + 1 }

/-- Embedding of `ModelBuilder.dispose` (src/unnamed/part_000 lines
300-306): if a model is referenced it is released and the reference is
nulled.  `MLPlatform.reset` and `selectCrypto` (src/js/main.js lines 65 and
255) call exactly this. -/
def disposeModel (st : BuilderState) : BuilderState :=
  match st.current with
  | some m =>
    { current := none, live := st.live.filter (fun x => x ≠ m), next := st.next }
  | none => st

/-- Session operations that touch the model resource: `trainModel` calls
`buildModel`; `reset` and `selectCrypto` call `dispose`. -/
inductive BuilderOp where
  | build : BuilderOp
  | dispose : BuilderOp
deriving DecidableEq

/-- Run a sequence of session operations from a state. -/
def runBuilder (st : BuilderState) : List BuilderOp → BuilderState
  | [] => st
  | BuilderOp.build :: rest => runBuilder (buildModel st) rest
  | BuilderOp.dispose :: rest => runBuilder (disposeModel st) rest

/-- Embedding of `normalizeFeatures` (src/js/dataProcessor.js lines 435-463;
src/unnamed/part_001 lines 1235-1263 is character-identical): per-dimension
means and standard deviations are computed over the WHOLE supplied vector
set, every vector is rescaled in place, and `this.scaler = { means, stds }`
is recorded.  `Math.sqrt(variance) || 1` is modelled by substituting 1 when
the square-root parameter returns 0. -/
def normalizeFeatures (s : ℚ → ℚ) (data : List FeatureRow) :
    List FeatureRow × Option Scaler :=
  match data with
  | [] => ([], none)
  | d0 :: _ =>
    let featureCount := d0.features.length
    let len : ℚ := data.length
    let means := (List.range featureCount).map
      (fun i => (data.map (fun item => item.features.getD i 0)).sum / len)
    let stds := (List.range featureCount).map
      (fun i =>
        let variance :=
          (data.map (fun item => (item.features.getD i 0 - means.getD i 0) ^ 2)).sum / len
        let sd := s variance
        if sd = 0 then 1 else sd)
    let newData := data.map
      (fun item =>
        { item with
          features := (List.range featureCount).map
            (fun i => (item.features.getD i 0 - means.getD i 0) / stds.getD i 0) })
    (newData, some ⟨means, stds⟩)

/-- Embedding of `getLatestFeatures` (src/js/dataProcessor.js lines 489-491
and src/unnamed/part_001 lines 1279-1281): the features of the last
processed vector, or null when none exist; the function is total. -/
def getLatestFeatures (processedData : List FeatureRow) : Option (List ℚ) :=
  if 0 < processedData.length then
    some ((processedData.getD (processedData.length - 1) default).features)
  else none

namespace DP1

/-- First pass of `calculateMovingAverageArray` (src/js/dataProcessor.js
lines 348-365): running prefix sums over the first `min(window, n)` indices,
emitting `sum / (i + 1)` and returning the final running sum. -/
def maPass1 (prices : List ℚ) : ℚ → List ℕ → List ℚ × ℚ
  | sum, [] => ([], sum)
  | sum, i :: rest =>
    let sum2 := sum + prices.getD i 0
    let r := maPass1 prices sum2 rest
    ((sum2 / ((i : ℚ) + 1)) :: r.1, r.2)

/-- Second pass of `calculateMovingAverageArray`: the rolling update
`sum = sum + prices[i] - prices[i - window]` emitting `sum / window`. -/
def maPass2 (prices : List ℚ) (window : ℕ) : ℚ → List ℕ → List ℚ
  | _, [] => []
  | sum, i :: rest =>
    let sum2 := sum + prices.getD i 0 - prices.getD (i - window) 0
    (sum2 / (window : ℚ)) :: maPass2 prices window sum2 rest

/-- Embedding of `calculateMovingAverageArray` (src/js/dataProcessor.js
lines 348-365). -/
def calculateMovingAverageArray (prices : List ℚ) (window : ℕ) : List ℚ :=
  let n := prices.length
  let p1 := maPass1 prices 0 (List.range' 0 (min window n))
  p1.1 ++ maPass2 prices window p1.2 (List.range' window (n - window))

/-- One Wilder smoothing step of `calculateRSIArray` (src/js/dataProcessor.js
lines 389-396): the change at index `i`, its gain/loss split, and the
exponentially smoothed averages `(avg * (period - 1) + new) / period`. -/
def rsiUpdate (period : ℕ) (prices : List ℚ) (gl : ℚ × ℚ) (i : ℕ) : ℚ × ℚ :=
  let change := prices.getD i 0 - prices.getD (i - 1) 0
  let gain := if 0 < change then change else 0
  let loss := if change < 0 then |change| else 0
  ((gl.1 * ((period : ℚ) - 1) + gain) / (period : ℚ),
   (gl.2 * ((period : ℚ) - 1) + loss) / (period : ℚ))

/-- The RSI value written for a pair of smoothed averages
(src/js/dataProcessor.js lines 397-398):
`rs = avgLoss === 0 ? 100 : avgGain / avgLoss; 100 - 100 / (1 + rs)`. -/
def rsiValue (gl : ℚ × ℚ) : ℚ :=
  let rs := if gl.2 = 0 then 100 else gl.1 / gl.2
  100 - 100 / (1 + rs)

/-- The rolling RSI loop over the index list `[period, ..., n-1]`. -/
def rsiLoop (period : ℕ) (prices : List ℚ) : ℚ × ℚ → List ℕ → List ℚ
  | _, [] => []
  | gl, i :: rest =>
    let gl2 := rsiUpdate period prices gl i
    rsiValue gl2 :: rsiLoop period prices gl2 rest

/-- Initial averages of `calculateRSIArray` (src/js/dataProcessor.js lines
375-386): simple sums of gains and absolute losses over indices 1..period,
each divided by the period. -/
def initialAvgs (prices : List ℚ) (period : ℕ) : ℚ × ℚ :=
  let acc := (List.range' 1 period).foldl
    (fun (acc : ℚ × ℚ) i =>
      let change := prices.getD i 0 - prices.getD (i - 1) 0
      if 0 < change then (acc.1 + change, acc.2) else (acc.1, acc.2 + |change|))
    (0, 0)
  (acc.1 / (period : ℚ), acc.2 / (period : ℚ))

/-- Embedding of `calculateRSIArray` (src/js/dataProcessor.js lines
370-402): an array initialized with 50 everywhere, returned as-is when the
series is shorter than `period + 1`, and otherwise overwritten from index
`period` on by the rolling Wilder-smoothed RSI. -/
def calculateRSIArray (prices : List ℚ) (period : ℕ) : List ℚ :=
  if prices.length < period + 1 then List.replicate prices.length 50
  else
    List.replicate period 50 ++
      rsiLoop period prices (initialAvgs prices period)
        (List.range' period (prices.length - period))

/-- Embedding of `calculateMomentum` (src/js/dataProcessor.js lines
407-409). -/
def calculateMomentum (prices : List ℚ) (index : ℕ) : ℚ :=
  if 0 < index then prices.getD index 0 / prices.getD (index - 1) 0 - 1 else 0

/-- Embedding of `calculateVolatility` (src/js/dataProcessor.js lines
414-420): population standard deviation of the supplied price slice, with
`Math.sqrt` the parameter `s`. -/
def calculateVolatility (s : ℚ → ℚ) (ps : List ℚ) : ℚ :=
  if ps.length < 2 then 0
  else
    let mean := ps.sum / (ps.length : ℚ)
    s ((ps.map (fun p => (p - mean) ^ 2)).sum / (ps.length : ℚ))

/-- Embedding of `calculateVolumeRatio` (src/js/dataProcessor.js lines
425-430): current volume over the mean volume of `slice(max(0, i-9), i+1)`,
defined as 1 when that mean is 0. -/
def calculateVolumeRatio (volumes : List ℚ) (index : ℕ) : ℚ :=
  let recent := (volumes.take (index + 1)).drop (index - 9)
  let avgVolume := recent.sum / (recent.length : ℚ)
  if avgVolume = 0 then 1 else volumes.getD index 0 / avgVolume

/-- The unnormalized feature rows built by the loop of `processFeatures`
(src/js/dataProcessor.js lines 321-337): one row per index
`i = 10 .. length-2`. -/
def featureRows (s : ℚ → ℚ) (raw : List RawPoint) : List FeatureRow :=
  let prices := raw.map RawPoint.price
  let volumes := raw.map RawPoint.volume
  let ma5 := calculateMovingAverageArray prices 5
  let ma10 := calculateMovingAverageArray prices 10
  let rsi := calculateRSIArray prices 14
  (List.range' 10 (raw.length - 11)).map
    (fun i =>
      { features := [ma5.getD i 0, ma10.getD i 0, calculateMomentum prices i,
          calculateVolatility s ((prices.take (i + 1)).drop (i - 9)),
          calculateVolumeRatio volumes i, rsi.getD i 0],
        target := prices.getD (i + 1) 0,
        price := prices.getD i 0 })

/-- Embedding of `processFeatures` (src/js/dataProcessor.js lines 301-343):
the insufficient-data guard at fewer than 20 raw observations, then the
feature rows, then `normalizeFeatures()` over the FULL processed set —
before any train/test split takes place.  (The content-keyed cache only
memoizes this pure result and is not modelled.) -/
def processFeatures (s : ℚ → ℚ) (raw : List RawPoint) :
    Except String (List FeatureRow × Option Scaler) :=
  if raw.length < 20 then Except.error "Insufficient data for feature processing"
  else Except.ok (normalizeFeatures s (featureRows s raw))

/-- The Scaler produced by a pipeline run, if any. -/
def pipelineScaler (s : ℚ → ℚ) (raw : List RawPoint) : Option Scaler :=
  match processFeatures s raw with
  | Except.ok p => p.2
  | Except.error _ => none

end DP1

/-- The normalization mean a Scaler holds for feature dimension `k`
(dimension 2 is the 1-step momentum). -/
def scalerMean (k : ℕ) : Option Scaler → ℚ
  | some sc => sc.means.getD k 0
  | none => 0

namespace DP2

/-- Embedding of `calculateMA` (src/unnamed/part_001 lines 1170-1174):
mean of `prices.slice(max(0, index - period + 1), index + 1)`. -/
def calculateMA (prices : List ℚ) (index period : ℕ) : ℚ :=
  let slice := (prices.take (index + 1)).drop (index + 1 - period)
  slice.sum / (slice.length : ℚ)

/-- Embedding of `calculateMomentum` (src/unnamed/part_001 lines
1179-1181). -/
def calculateMomentum (prices : List ℚ) (index : ℕ) : ℚ :=
  if 0 < index then prices.getD index 0 / prices.getD (index - 1) 0 - 1 else 0

/-- Embedding of `calculateVolatility` (src/unnamed/part_001 lines
1186-1195), with `Math.sqrt` the parameter `s`. -/
def calculateVolatility (s : ℚ → ℚ) (prices : List ℚ) (index period : ℕ) : ℚ :=
  let slice := (prices.take (index + 1)).drop (index + 1 - period)
  if slice.length < 2 then 0
  else
    let mean := slice.sum / (slice.length : ℚ)
    s ((slice.map (fun p => (p - mean) ^ 2)).sum / (slice.length : ℚ))

/-- Embedding of `calculateVolumeRatio` (src/unnamed/part_001 lines
1200-1205). -/
def calculateVolumeRatio (volumes : List ℚ) (index period : ℕ) : ℚ :=
  let slice := (volumes.take (index + 1)).drop (index + 1 - period)
  let avgVolume := slice.sum / (slice.length : ℚ)
  if avgVolume = 0 then 1 else volumes.getD index 0 / avgVolume

/-- The change list of `calculateRSI` (src/unnamed/part_001 lines
1213-1218): differences over the window `index - period + 1 .. index`,
guarded by `i > 0`. -/
def rsiChanges (prices : List ℚ) (index period : ℕ) : List ℚ :=
  ((List.range' (index + 1 - period) period).filter (fun i => 0 < i)).map
    (fun i => prices.getD i 0 - prices.getD (i - 1) 0)

/-- Average gain of `calculateRSI` (src/unnamed/part_001 lines 1220-1223):
the sum of positive changes divided by the period (0 when there are none). -/
def rsiAvgGain (prices : List ℚ) (index period : ℕ) : ℚ :=
  let gains := (rsiChanges prices index period).filter (fun c => 0 < c)
  if 0 < gains.length then gains.sum / (period : ℚ) else 0

/-- Average loss of `calculateRSI` (src/unnamed/part_001 lines 1221-1224):
the sum of absolute negative changes divided by the period (0 when there are
none). -/
def rsiAvgLoss (prices : List ℚ) (index period : ℕ) : ℚ :=
  let losses := ((rsiChanges prices index period).filter (fun c => c < 0)).map
    (fun c => |c|)
  if 0 < losses.length then losses.sum / (period : ℚ) else 0

/-- Embedding of `calculateRSI` (src/unnamed/part_001 lines 1210-1230):
50 below the lookback, exactly 100 when the average loss is 0, and otherwise
`100 - 100 / (1 + avgGain / avgLoss)`. -/
def calculateRSI (prices : List ℚ) (index period : ℕ) : ℚ :=
  if index < period then 50
  else if rsiAvgLoss prices index period = 0 then 100
  else
    let rs := rsiAvgGain prices index period / rsiAvgLoss prices index period
    100 - 100 / (1 + rs)

/-- The unnormalized feature rows built by the loop of `processFeatures`
(src/unnamed/part_001 lines 1143-1159): one row per index
`i = 14 .. length-2`, six features, target `prices[i + 1]`. -/
def featureRows (s : ℚ → ℚ) (raw : List RawPoint) : List FeatureRow :=
  let prices := raw.map RawPoint.price
  let volumes := raw.map RawPoint.volume
  (List.range' 14 (raw.length - 15)).map
    (fun i =>
      { features := [calculateMA prices i 5, calculateMA prices i 10,
          calculateMomentum prices i, calculateVolatility s prices i 10,
          calculateVolumeRatio volumes i 10, calculateRSI prices i 14],
        target := prices.getD (i + 1) 0,
        price := prices.getD i 0 })

/-- Embedding of `processFeatures` (src/unnamed/part_001 lines 1133-1165):
the insufficient-data guard at fewer than 20 raw observations, then the
feature rows, then `normalizeFeatures()` over the full processed set. -/
def processFeatures (s : ℚ → ℚ) (raw : List RawPoint) :
    Except String (List FeatureRow × Option Scaler) :=
  if raw.length < 20 then Except.error "Insufficient data for feature processing"
  else Except.ok (normalizeFeatures s (featureRows s raw))

end DP2

/-- Concrete 20-point series for the leakage analysis: constant price 1,
constant volume 1. -/
def leakSeriesA : List RawPoint :=
  [⟨1, 1⟩, ⟨1, 1⟩, ⟨1, 1⟩, ⟨1, 1⟩, ⟨1, 1⟩, ⟨1, 1⟩, ⟨1, 1⟩, ⟨1, 1⟩, ⟨1, 1⟩, ⟨1, 1⟩,
   ⟨1, 1⟩, ⟨1, 1⟩, ⟨1, 1⟩, ⟨1, 1⟩, ⟨1, 1⟩, ⟨1, 1⟩, ⟨1, 1⟩, ⟨1, 1⟩, ⟨1, 1⟩, ⟨1, 1⟩]

/-- The same series with only the price at index 18 changed — index 18
contributes features only to the LAST feature vector, which the 0.8 split
assigns to the test partition. -/
def leakSeriesB : List RawPoint :=
  [⟨1, 1⟩, ⟨1, 1⟩, ⟨1, 1⟩, ⟨1, 1⟩, ⟨1, 1⟩, ⟨1, 1⟩, ⟨1, 1⟩, ⟨1, 1⟩, ⟨1, 1⟩, ⟨1, 1⟩,
   ⟨1, 1⟩, ⟨1, 1⟩, ⟨1, 1⟩, ⟨1, 1⟩, ⟨1, 1⟩, ⟨1, 1⟩, ⟨1, 1⟩, ⟨1, 1⟩, ⟨2, 1⟩, ⟨1, 1⟩]

/-- Concrete 16-point series (length exactly warm-up + 2). -/
def series16 : List RawPoint :=
  [⟨1, 1⟩, ⟨1, 1⟩, ⟨1, 1⟩, ⟨1, 1⟩, ⟨1, 1⟩, ⟨1, 1⟩, ⟨1, 1⟩, ⟨1, 1⟩,
   ⟨1, 1⟩, ⟨1, 1⟩, ⟨1, 1⟩, ⟨1, 1⟩, ⟨1, 1⟩, ⟨1, 1⟩, ⟨1, 1⟩, ⟨1, 1⟩]

/-! Theorems. -/

/-- Claim C5: for every vector list and ratio, the boundary sits at
`floor(length * ratio)`, the split is deterministic, and concatenating the
train and test partitions in order reconstructs the input exactly. -/
theorem splitData_boundary_det_reconstruct {α : Type} (v : List α) (r : ℚ) :
    (splitData v r).1 ++ (splitData v r).2 = v ∧
    (splitData v r).1 = v.take (⌊(v.length : ℚ) * r⌋).toNat ∧
    (splitData v r).2 = v.drop (⌊(v.length : ℚ) * r⌋).toNat ∧
    (∀ (w : List α) (q : ℚ), w = v → q = r → splitData w q = splitData v r) ∧
    (0 ≤ r → r ≤ 1 →
      (splitData v r).1.length = (⌊(v.length : ℚ) * r⌋).toNat) := by
  refine ⟨List.take_append_drop _ v, rfl, rfl, ?_, ?_⟩
  · intro w q hw hq; rw [hw, hq]
  · intro h0 h1
    have hle : (⌊(v.length : ℚ) * r⌋).toNat ≤ v.length := by
      have hmul : (v.length : ℚ) * r ≤ (v.length : ℚ) :=
        mul_le_of_le_one_right (by positivity) h1
      have hfl : ⌊(v.length : ℚ) * r⌋ ≤ (v.length : ℤ) := by
        have := Int.floor_mono hmul
        simpa using this
      exact Int.toNat_le.mpr hfl
    simp [splitData, List.length_take, Nat.min_eq_left hle]

/-- Witness for claim C5 at a concrete input: splitting a 12-element list at
ratio 0.8 places the boundary at index 9. -/
theorem splitData_boundary_det_reconstruct_witness :
    (splitData [0, 1, 2, 3, 4, 5, 6, 7, 8, 9, 10, (11 : ℚ)] (4/5)).1.length =
      (⌊(((12 : ℕ) : ℚ)) * (4/5)⌋).toNat := by
  have h := splitData_boundary_det_reconstruct
      [0, 1, 2, 3, 4, 5, 6, 7, 8, 9, 10, (11 : ℚ)] (4/5)
  exact h.2.2.2.2 (by norm_num) (by norm_num)

/-- Helper: the split index used on a 12-element vector set at ratio 0.8. -/
theorem splitIndex_twelve : (⌊((12 : ℕ) : ℚ) * (4/5)⌋).toNat = 9 := by
  have h : (⌊((12 : ℕ) : ℚ) * (4/5)⌋) = 9 := by norm_num
  rw [h]
  rfl

/-- Claim C6: the guarded split step of `trainModel` fails exactly when the
resulting train partition has fewer than 10 vectors or the test partition
fewer than 5; in particular a 12-element vector set at ratio 0.8 splits
9/3 and raises the insufficient-data error. -/
theorem trainSplitStep_minimums :
    (∀ data : List FeatureRow,
      (∃ e, trainSplitStep data = Except.error e) ↔
        ((splitData data (4/5)).1.length < 10 ∨
         (splitData data (4/5)).2.length < 5)) ∧
    ((splitData (List.replicate 12 (⟨[], 0, 0⟩ : FeatureRow)) (4/5)).1.length = 9 ∧
     (splitData (List.replicate 12 (⟨[], 0, 0⟩ : FeatureRow)) (4/5)).2.length = 3 ∧
     trainSplitStep (List.replicate 12 (⟨[], 0, 0⟩ : FeatureRow)) =
       Except.error
         "Insufficient data for training. Need at least 15 data points.") := by
  constructor
  · intro data
    constructor
    · rintro ⟨e, he⟩
      by_contra hcon
      push_neg at hcon
      simp only [trainSplitStep] at he
      rw [if_neg] at he
      · exact Except.noConfusion he
      · push_neg
        exact hcon
    · intro h
      refine ⟨"Insufficient data for training. Need at least 15 data points.", ?_⟩
      simp only [trainSplitStep]
      rw [if_pos h]
  · have hlen : (List.replicate 12 (⟨[], 0, 0⟩ : FeatureRow)).length = 12 :=
      List.length_replicate 12 _
    have h1 : (splitData (List.replicate 12 (⟨[], 0, 0⟩ : FeatureRow)) (4/5)).1.length = 9 := by
      simp only [splitData, hlen, splitIndex_twelve, List.length_take]
      decide
    have h2 : (splitData (List.replicate 12 (⟨[], 0, 0⟩ : FeatureRow)) (4/5)).2.length = 3 := by
      simp only [splitData, hlen, splitIndex_twelve, List.length_drop]
    refine ⟨h1, h2, ?_⟩
    simp only [trainSplitStep]
    rw [if_pos (by rw [h1]; norm_num)]

/-- Helper: a left fold that accumulates three running sums equals the triple
of list sums. -/
theorem foldl_three_sums {α : Type} (f g h : α → ℚ) :
    ∀ (l : List α) (a b c : ℚ),
      l.foldl
        (fun (acc : ℚ × ℚ × ℚ) x =>
          (acc.1 + f x, acc.2.1 + g x, acc.2.2 + h x)) (a, b, c) =
      (a + (l.map f).sum, b + (l.map g).sum, c + (l.map h).sum) := by
  intro l
  induction l with
  | nil => intro a b c; simp
  | cons x xs ih =>
    intro a b c
    simp only [List.foldl_cons, List.map_cons, List.sum_cons, ih, add_assoc]

/-- Helper: mapping a function of the second component over a zip of
equal-length lists is mapping it over the second list. -/
theorem map_snd_zip_eq (g : ℚ → ℚ) :
    ∀ (l1 l2 : List ℚ), l1.length = l2.length →
      ((l1.zip l2).map fun pa => g pa.2) = l2.map g := by
  intro l1
  induction l1 with
  | nil =>
    intro l2 h
    cases l2 with
    | nil => simp
    | cons y ys => simp at h
  | cons x xs ih =>
    intro l2 h
    cases l2 with
    | nil => simp at h
    | cons y ys =>
      simp only [List.length_cons, Nat.succ.injEq] at h
      simp only [List.zip_cons_cons, List.map_cons, ih ys h]

/-- Claim C4: for equal-length non-empty inputs, `calculateMetrics` returns
MAE = mean of absolute errors, MSE = mean of squared errors, RMSE = the
square root applied to MSE, R-squared = 1 - (MSE*n)/sum((a-mean a)^2) with 0
substituted when that denominator is 0, and accuracy =
max(0, (1 - MAE/mean(actuals))*100); the result is a pure function of its
inputs. -/
theorem calculateMetrics_formulas (s : ℚ → ℚ) (ps as : List ℚ)
    (hlen : ps.length = as.length) (_hne : ps ≠ []) :
    calculateMetrics s ps as =
      { mae := ((ps.zip as).map fun pa => |pa.1 - pa.2|).sum / (ps.length : ℚ)
        mse := ((ps.zip as).map fun pa => (pa.1 - pa.2) ^ 2).sum / (ps.length : ℚ)
        rmse := s (((ps.zip as).map fun pa => (pa.1 - pa.2) ^ 2).sum / (ps.length : ℚ))
        r2 :=
          if (as.map fun a => (a - as.sum / (as.length : ℚ)) ^ 2).sum = 0 then 0
          else 1 -
            ((((ps.zip as).map fun pa => (pa.1 - pa.2) ^ 2).sum / (ps.length : ℚ)) *
              (ps.length : ℚ)) /
            (as.map fun a => (a - as.sum / (as.length : ℚ)) ^ 2).sum
        accuracy :=
          max 0 ((1 -
            (((ps.zip as).map fun pa => |pa.1 - pa.2|).sum / (ps.length : ℚ)) /
              (as.sum / (as.length : ℚ))) * 100)
        sampleSize := ps.length } := by
  have hmean : as.sum / ((ps.length : ℕ) : ℚ) = as.sum / ((as.length : ℕ) : ℚ) := by
    rw [hlen]
  simp only [calculateMetrics, foldl_three_sums, zero_add, hmean,
    map_snd_zip_eq (fun a => (a - as.sum / ((as.length : ℕ) : ℚ)) ^ 2) ps as hlen]

/-- Witness for claim C4 at the specified example: with the square root left
as the identity parameter, `evaluate([1,2,3],[1,2,4])` yields MAE = 1/3,
MSE = 1/3, RMSE = s(1/3), R-squared = 11/14, accuracy = 600/7. -/
theorem calculateMetrics_formulas_witness :
    calculateMetrics id [1, 2, 3] [1, 2, 4] =
      { mae := 1/3, mse := 1/3, rmse := id (1/3 : ℚ), r2 := 11/14,
        accuracy := 600/7, sampleSize := 3 } := by
  refine (calculateMetrics_formulas id [1, 2, 3] [1, 2, 4] rfl (by decide)).trans ?_
  norm_num [List.zip, List.zipWith, abs_of_nonneg, abs_of_nonpos]

/-- Claim C7 counterexample: with a model present, evaluating empty
prediction/actual sequences does not raise; the code returns a Metrics
record (NaN-valued in JavaScript) instead of a ValidationError. -/
theorem evaluateModel_empty_no_error :
    evaluateModel id (some 0) ([] : List ℚ) [] =
      Except.ok (calculateMetrics id [] []) := rfl

/-- Claim C7 as amended: `evaluateModel` validates only the presence of a
model — it fails with the no-model error when `this.model` is null, and for
any prediction/actual sequences (equal-length or not, empty or not) it
returns `calculateMetrics` of them without raising. -/
theorem evaluateModel_validation (s : ℚ → ℚ) (model : Option ℕ)
    (ps as : List ℚ) :
    (model = none →
      evaluateModel s model ps as =
        Except.error "No model available for evaluation") ∧
    (∀ m, model = some m →
      evaluateModel s model ps as = Except.ok (calculateMetrics s ps as)) ∧
    ((evaluateModel s model ps as).isOk = model.isSome) := by
  cases model with
  | none => exact ⟨fun _ => rfl, fun m hm => Option.noConfusion hm, rfl⟩
  | some m => exact ⟨fun hm => Option.noConfusion hm, fun k hk => rfl, rfl⟩

/-- Witness for claim C7 as amended: with a model present, evaluation of a
concrete pair returns the computed metrics. -/
theorem evaluateModel_validation_witness :
    evaluateModel id (some 1) [(1 : ℚ)] [2] =
      Except.ok (calculateMetrics id [1] [2]) :=
  (evaluateModel_validation id (some 1) [1] [2]).2.1 1 rfl

/-- Helper: the RSI output formula is bounded by [0, 100] for nonnegative
relative strength. -/
theorem rsiFormula_bounds (rs : ℚ) (h : 0 ≤ rs) :
    0 ≤ 100 - 100 / (1 + rs) ∧ 100 - 100 / (1 + rs) ≤ 100 := by
  have h1 : (1 : ℚ) ≤ 1 + rs := by linarith
  have hd1 : 100 / (1 + rs) ≤ 100 := div_le_self (by norm_num) h1
  have hd0 : (0 : ℚ) ≤ 100 / (1 + rs) := div_nonneg (by norm_num) (by linarith)
  constructor <;> linarith

/-- Helper: the RSI value of nonnegative smoothed averages lies in [0, 100]. -/
theorem rsiValue_bounds (gl : ℚ × ℚ) (hg : 0 ≤ gl.1) (hl : 0 ≤ gl.2) :
    0 ≤ DP1.rsiValue gl ∧ DP1.rsiValue gl ≤ 100 := by
  have hval : DP1.rsiValue gl =
      100 - 100 / (1 + (if gl.2 = 0 then (100 : ℚ) else gl.1 / gl.2)) := rfl
  rw [hval]
  refine rsiFormula_bounds _ ?_
  split
  · norm_num
  · exact div_nonneg hg hl

/-- Helper: the Wilder smoothing update preserves nonnegativity of the
averages. -/
theorem rsiUpdate_nonneg (period : ℕ) (hp : 1 ≤ period) (prices : List ℚ)
    (gl : ℚ × ℚ) (i : ℕ) (hg : 0 ≤ gl.1) (hl : 0 ≤ gl.2) :
    0 ≤ (DP1.rsiUpdate period prices gl i).1 ∧
    0 ≤ (DP1.rsiUpdate period prices gl i).2 := by
  have hper : (1 : ℚ) ≤ (period : ℚ) := by exact_mod_cast hp
  have hper0 : (0 : ℚ) ≤ (period : ℚ) := by linarith
  have hgain : (0 : ℚ) ≤
      (if 0 < prices.getD i 0 - prices.getD (i - 1) 0 then
        prices.getD i 0 - prices.getD (i - 1) 0 else 0) := by
    split
    · linarith
    · exact le_refl 0
  have hloss : (0 : ℚ) ≤
      (if prices.getD i 0 - prices.getD (i - 1) 0 < 0 then
        |prices.getD i 0 - prices.getD (i - 1) 0| else 0) := by
    split
    · exact abs_nonneg _
    · exact le_refl 0
  constructor
  · exact div_nonneg (add_nonneg (mul_nonneg hg (by linarith)) hgain) hper0
  · exact div_nonneg (add_nonneg (mul_nonneg hl (by linarith)) hloss) hper0

/-- Helper: every value emitted by the rolling RSI loop lies in [0, 100]
when started from nonnegative averages. -/
theorem rsiLoop_bounds (period : ℕ) (hp : 1 ≤ period) (prices : List ℚ) :
    ∀ (idxs : List ℕ) (gl : ℚ × ℚ), 0 ≤ gl.1 → 0 ≤ gl.2 →
      ∀ x ∈ DP1.rsiLoop period prices gl idxs, 0 ≤ x ∧ x ≤ 100 := by
  intro idxs
  induction idxs with
  | nil =>
    intro gl hg hl x hx
    simp [DP1.rsiLoop] at hx
  | cons i rest ih =>
    intro gl hg hl x hx
    have hup := rsiUpdate_nonneg period hp prices gl i hg hl
    simp only [DP1.rsiLoop, List.mem_cons] at hx
    rcases hx with hx | hx
    · subst hx
      exact rsiValue_bounds _ hup.1 hup.2
    · exact ih _ hup.1 hup.2 x hx

/-- Helper: the initial gain/loss accumulation of `calculateRSIArray` keeps
both components nonnegative. -/
theorem initialFold_nonneg (prices : List ℚ) :
    ∀ (l : List ℕ) (ab : ℚ × ℚ), 0 ≤ ab.1 → 0 ≤ ab.2 →
      0 ≤ (l.foldl
        (fun (acc : ℚ × ℚ) i =>
          let change := prices.getD i 0 - prices.getD (i - 1) 0
          if 0 < change then (acc.1 + change, acc.2)
          else (acc.1, acc.2 + |change|)) ab).1 ∧
      0 ≤ (l.foldl
        (fun (acc : ℚ × ℚ) i =>
          let change := prices.getD i 0 - prices.getD (i - 1) 0
          if 0 < change then (acc.1 + change, acc.2)
          else (acc.1, acc.2 + |change|)) ab).2 := by
  intro l
  induction l with
  | nil => intro ab hg hl; exact ⟨hg, hl⟩
  | cons i rest ih =>
    intro ab hg hl
    simp only [List.foldl_cons]
    split
    next h => exact ih _ (add_nonneg hg (le_of_lt h)) hl
    next h => exact ih _ hg (add_nonneg hl (abs_nonneg _))

/-- Helper: the initial averages of `calculateRSIArray` are nonnegative. -/
theorem initialAvgs_nonneg (prices : List ℚ) (period : ℕ) :
    0 ≤ (DP1.initialAvgs prices period).1 ∧
    0 ≤ (DP1.initialAvgs prices period).2 := by
  have h := initialFold_nonneg prices (List.range' 1 period) (0, 0)
    (le_refl 0) (le_refl 0)
  exact ⟨div_nonneg h.1 (Nat.cast_nonneg period),
    div_nonneg h.2 (Nat.cast_nonneg period)⟩

/-- Helper: `getD` on a replicated list of 50s with default 50 is 50. -/
theorem getD_replicate_fifty : ∀ (n i : ℕ),
    (List.replicate n (50 : ℚ)).getD i 50 = 50 := by
  intro n
  induction n with
  | zero => intro i; cases i <;> rfl
  | succ m ih =>
    intro i
    cases i with
    | zero => rfl
    | succ j => exact ih j

/-- Helper: `getD` below the replicated prefix of an append reads the
replicated value. -/
theorem getD_replicate_append_fifty (l : List ℚ) : ∀ (m i : ℕ), i < m →
    ((List.replicate m (50 : ℚ)) ++ l).getD i 50 = 50 := by
  intro m
  induction m with
  | zero => intro i h; exact absurd h (Nat.not_lt_zero i)
  | succ k ih =>
    intro i h
    cases i with
    | zero => rfl
    | succ j => exact ih j (Nat.lt_of_succ_lt_succ h)

/-- Helper: `getD` of a replicated list below its length, any default. -/
theorem getD_replicate_lt : ∀ (n i : ℕ), i < n → ∀ (x d : ℚ),
    (List.replicate n x).getD i d = x := by
  intro n
  induction n with
  | zero => intro i h; exact absurd h (Nat.not_lt_zero i)
  | succ m ih =>
    intro i h x d
    cases i with
    | zero => rfl
    | succ j => exact ih j (Nat.lt_of_succ_lt_succ h) x d

/-- Claim C8 counterexample: on a constant 15-point series the smoothed
average loss at index 14 is 0 (the initial averages are (0,0) and the update
keeps them 0), yet the RSI written there is 10000/101, not 100: the code
substitutes rs = 100 for a zero average loss instead of returning 100. -/
theorem rsiArray_zero_loss_not_100 :
    DP1.initialAvgs (List.replicate 15 (1 : ℚ)) 14 = (0, 0) ∧
    DP1.rsiUpdate 14 (List.replicate 15 (1 : ℚ)) (0, 0) 14 = (0, 0) ∧
    (DP1.calculateRSIArray (List.replicate 15 (1 : ℚ)) 14).getD 14 0 = 10000 / 101 ∧
    (10000 / 101 : ℚ) ≠ 100 := by
  have hr : List.range' 1 14 = [1, 2, 3, 4, 5, 6, 7, 8, 9, 10, 11, 12, 13, 14] := rfl
  have hIA : DP1.initialAvgs (List.replicate 15 (1 : ℚ)) 14 = (0, 0) := by
    simp only [DP1.initialAvgs, hr, List.foldl_cons, List.foldl_nil]
    norm_num [getD_replicate_lt]
  have hupd : DP1.rsiUpdate 14 (List.replicate 15 (1 : ℚ)) (0, 0) 14 = (0, 0) := by
    simp only [DP1.rsiUpdate]
    norm_num [getD_replicate_lt]
  have hsel : (DP1.calculateRSIArray (List.replicate 15 (1 : ℚ)) 14).getD 14 0 =
      DP1.rsiValue (DP1.rsiUpdate 14 (List.replicate 15 (1 : ℚ))
        (DP1.initialAvgs (List.replicate 15 (1 : ℚ)) 14) 14) := rfl
  refine ⟨hIA, hupd, ?_, by norm_num⟩
  rw [hsel, hIA, hupd]
  norm_num [DP1.rsiValue]

/-- Claim C8 as amended: every RSI value computed by the smoothed
`calculateRSIArray` lies in [0, 100]; indices with insufficient history
(below the 14-period lookback) read 50; whenever the smoothed average loss
is 0 the written value is 10000/101 (not 100, since the code maps zero loss
to rs = 100).  The per-index simple-average variant `DP2.calculateRSI`
satisfies the same range and insufficient-history clauses and does return
exactly 100 when its average loss is 0. -/
theorem rsi_range_and_special_values :
    (∀ (prices : List ℚ), ∀ x ∈ DP1.calculateRSIArray prices 14,
      0 ≤ x ∧ x ≤ 100) ∧
    (∀ (prices : List ℚ) (i : ℕ), i < 14 →
      (DP1.calculateRSIArray prices 14).getD i 50 = 50) ∧
    (∀ gl : ℚ × ℚ, gl.2 = 0 → DP1.rsiValue gl = 10000 / 101) ∧
    (∀ (prices : List ℚ) (i : ℕ), i < 14 → DP2.calculateRSI prices i 14 = 50) ∧
    (∀ (prices : List ℚ) (i : ℕ), 14 ≤ i → DP2.rsiAvgLoss prices i 14 = 0 →
      DP2.calculateRSI prices i 14 = 100) ∧
    (∀ (prices : List ℚ) (i : ℕ),
      0 ≤ DP2.calculateRSI prices i 14 ∧ DP2.calculateRSI prices i 14 ≤ 100) := by
  have hGain : ∀ (prices : List ℚ) (i : ℕ), 0 ≤ DP2.rsiAvgGain prices i 14 := by
    intro prices i
    simp only [DP2.rsiAvgGain]
    split
    · refine div_nonneg (List.sum_nonneg ?_) (by norm_num)
      intro x hx
      have := List.mem_filter.mp hx
      have hxpos : 0 < x := by simpa using this.2
      linarith
    · exact le_refl 0
  have hLoss : ∀ (prices : List ℚ) (i : ℕ), 0 ≤ DP2.rsiAvgLoss prices i 14 := by
    intro prices i
    simp only [DP2.rsiAvgLoss]
    split
    · refine div_nonneg (List.sum_nonneg ?_) (by norm_num)
      intro x hx
      rcases List.mem_map.mp hx with ⟨c, hc, hcx⟩
      rw [← hcx]
      exact abs_nonneg c
    · exact le_refl 0
  refine ⟨?_, ?_, ?_, ?_, ?_, ?_⟩
  · intro prices x hx
    simp only [DP1.calculateRSIArray] at hx
    split at hx
    · rcases List.eq_of_mem_replicate hx with rfl
      norm_num
    · rcases List.mem_append.mp hx with hx | hx
      · rcases List.eq_of_mem_replicate hx with rfl
        norm_num
      · have hIA := initialAvgs_nonneg prices 14
        exact rsiLoop_bounds 14 (by norm_num) prices _ _ hIA.1 hIA.2 x hx
  · intro prices i hi
    simp only [DP1.calculateRSIArray]
    split
    · exact getD_replicate_fifty _ i
    · exact getD_replicate_append_fifty _ 14 i hi
  · intro gl hl
    have hval : DP1.rsiValue gl =
        100 - 100 / (1 + (if gl.2 = 0 then (100 : ℚ) else gl.1 / gl.2)) := rfl
    rw [hval, if_pos hl]
    norm_num
  · intro prices i hi
    simp only [DP2.calculateRSI]
    rw [if_pos hi]
  · intro prices i hi hzero
    simp only [DP2.calculateRSI]
    rw [if_neg (Nat.not_lt.mpr hi), if_pos hzero]
  · intro prices i
    simp only [DP2.calculateRSI]
    split
    · norm_num
    · split
      · norm_num
      · refine rsiFormula_bounds _ (div_nonneg (hGain prices i) (hLoss prices i))

/-- Witness for claim C8 as amended: concrete instances — index 0 of the
empty-series RSI array reads 50, and the simple-average RSI at an index
below the lookback is 50. -/
theorem rsi_range_and_special_values_witness :
    (DP1.calculateRSIArray [] 14).getD 0 50 = 50 ∧
    DP2.calculateRSI [] 3 14 = 50 :=
  ⟨rsi_range_and_special_values.2.1 [] 0 (by norm_num),
   rsi_range_and_special_values.2.2.2.1 [] 3 (by norm_num)⟩

/-- Claim C10: `getLatestFeatures` is a total function that returns the
features of the last processed vector, and returns null exactly when no
vectors have been processed. -/
theorem getLatestFeatures_last_or_none :
    ∀ d : List FeatureRow,
      getLatestFeatures d = d.getLast?.map FeatureRow.features ∧
      (getLatestFeatures d = none ↔ d = []) := by
  have hmain : ∀ d : List FeatureRow,
      getLatestFeatures d = d.getLast?.map FeatureRow.features := by
    intro d
    induction d with
    | nil => rfl
    | cons x xs ih =>
      cases xs with
      | nil => rfl
      | cons y ys =>
        have h1 : getLatestFeatures (x :: y :: ys) = getLatestFeatures (y :: ys) := by
          simp [getLatestFeatures, List.getD_cons_succ]
        rw [h1, ih, List.getLast?_cons_cons]
  intro d
  refine ⟨hmain d, ?_⟩
  rw [hmain d]
  cases d with
  | nil => simp
  | cons x xs => simp [List.getLast?_eq_none_iff]

/-- Claim C9: both `processFeatures` variants raise exactly the
insufficient-data error when the raw series has fewer than 20 observations,
and raise nothing for 20 or more. -/
theorem processFeatures_guard (s : ℚ → ℚ) (raw : List RawPoint) :
    (raw.length < 20 →
      DP1.processFeatures s raw =
        Except.error "Insufficient data for feature processing" ∧
      DP2.processFeatures s raw =
        Except.error "Insufficient data for feature processing") ∧
    (20 ≤ raw.length →
      DP1.processFeatures s raw =
        Except.ok (normalizeFeatures s (DP1.featureRows s raw)) ∧
      DP2.processFeatures s raw =
        Except.ok (normalizeFeatures s (DP2.featureRows s raw))) := by
  constructor
  · intro h
    exact ⟨by simp [DP1.processFeatures, if_pos h],
      by simp [DP2.processFeatures, if_pos h]⟩
  · intro h
    have h2 : ¬ raw.length < 20 := Nat.not_lt.mpr h
    exact ⟨by simp [DP1.processFeatures, h2], by simp [DP2.processFeatures, h2]⟩

/-- Witness for claim C9: a 16-point series raises the insufficient-data
error in both variants. -/
theorem processFeatures_guard_witness :
    DP1.processFeatures (fun q => q) series16 =
      Except.error "Insufficient data for feature processing" ∧
    DP2.processFeatures (fun q => q) series16 =
      Except.error "Insufficient data for feature processing" :=
  (processFeatures_guard (fun q => q) series16).1 (by norm_num [series16])

/-- Claim C3 counterexample: a series of length 16 = W + 2 (with W = 14 the
maximum indicator lookback) does NOT yield n - W - 1 = 1 feature vectors:
`processFeatures` raises its insufficient-data error, because the code
guards at 20 observations. -/
theorem processFeatures_16_raises :
    series16.length = 16 ∧
    DP2.processFeatures (fun q => q) series16 =
      Except.error "Insufficient data for feature processing" :=
  ⟨by norm_num [series16],
   by norm_num [DP2.processFeatures, series16]⟩

/-- Helper: `normalizeFeatures` preserves the number of vectors. -/
theorem normalizeFeatures_fst_length (s : ℚ → ℚ) (d : List FeatureRow) :
    (normalizeFeatures s d).1.length = d.length := by
  cases d with
  | nil => rfl
  | cons x xs => simp [normalizeFeatures]

/-- Helper: `getD` through a map that preserves targets preserves targets. -/
theorem getD_map_target (f : FeatureRow → FeatureRow)
    (hf : ∀ r, (f r).target = r.target) :
    ∀ (l : List FeatureRow) (k : ℕ),
      ((l.map f).getD k default).target = (l.getD k default).target := by
  intro l
  induction l with
  | nil => intro k; rfl
  | cons x xs ih =>
    intro k
    cases k with
    | zero => simpa using hf x
    | succ j => simpa using ih j

/-- Helper: `normalizeFeatures` preserves every vector's target. -/
theorem normalizeFeatures_target (s : ℚ → ℚ) (d : List FeatureRow) (k : ℕ) :
    ((normalizeFeatures s d).1.getD k default).target =
      (d.getD k default).target := by
  cases d with
  | nil => rfl
  | cons x xs =>
    simp only [normalizeFeatures]
    apply getD_map_target
    intro r
    rfl

/-- Helper: every vector emitted by `normalizeFeatures` has as many features
as the first input vector. -/
theorem normalizeFeatures_widths (s : ℚ → ℚ) (d : List FeatureRow) :
    ∀ row ∈ (normalizeFeatures s d).1,
      row.features.length = d.headI.features.length := by
  cases d with
  | nil => intro row h; simp [normalizeFeatures] at h
  | cons x xs =>
    intro row h
    simp only [normalizeFeatures, List.mem_map] at h
    rcases h with ⟨item, hitem, rfl⟩
    simp [List.length_map, List.length_range]

/-- Helper: `getD` of a map over `List.range'` below the count evaluates the
function at start + index. -/
theorem getD_map_range_at (f : ℕ → FeatureRow) :
    ∀ (n st k : ℕ), k < n →
      ((List.range' st n).map f).getD k default = f (st + k) := by
  intro n
  induction n with
  | zero => intro st k h; exact absurd h (Nat.not_lt_zero k)
  | succ m ih =>
    intro st k h
    have hr : List.range' st (m + 1) = st :: List.range' (st + 1) m := rfl
    rw [hr]
    cases k with
    | zero => simp
    | succ j =>
      simp only [List.map_cons, List.getD_cons_succ]
      rw [ih (st + 1) j (Nat.lt_of_succ_lt_succ h)]
      exact congrArg f (by omega)

/-- Helper: the number of unnormalized DP2 feature rows. -/
theorem DP2_featureRows_length (s : ℚ → ℚ) (raw : List RawPoint) :
    (DP2.featureRows s raw).length = raw.length - 15 := by
  simp [DP2.featureRows]

/-- Claim C3 as amended: for every series of at least 20 observations (the
code guard; lengths 16-19 satisfy n ≥ W + 2 but raise instead, see the
counterexample), `processFeatures` returns exactly n - 15 vectors, one per
index i = 14 .. n-2, each of the declared dimension 6, and the vector built
at index i carries target price[i + 1]. -/
theorem processFeatures_count_width_target (s : ℚ → ℚ) (raw : List RawPoint)
    (h : 20 ≤ raw.length) :
    DP2.processFeatures s raw =
      Except.ok (normalizeFeatures s (DP2.featureRows s raw)) ∧
    (normalizeFeatures s (DP2.featureRows s raw)).1.length = raw.length - 15 ∧
    (∀ row ∈ (normalizeFeatures s (DP2.featureRows s raw)).1,
      row.features.length = 6) ∧
    (∀ k, k < raw.length - 15 →
      ((normalizeFeatures s (DP2.featureRows s raw)).1.getD k default).target =
        (raw.map RawPoint.price).getD (14 + k + 1) 0) := by
  have hpos : raw.length - 15 = (raw.length - 16) + 1 := by omega
  refine ⟨by simp [DP2.processFeatures, Nat.not_lt.mpr h], ?_, ?_, ?_⟩
  · rw [normalizeFeatures_fst_length, DP2_featureRows_length]
  · intro row hrow
    have hw := normalizeFeatures_widths s (DP2.featureRows s raw) row hrow
    rw [hw]
    simp only [DP2.featureRows]
    rw [hpos]
    rfl
  · intro k hk
    rw [normalizeFeatures_target]
    simp only [DP2.featureRows]
    rw [getD_map_range_at _ (raw.length - 15) 14 k hk]

/-- Witness for claim C3 as amended, at a concrete 20-point series: the
pipeline succeeds with 5 vectors of width 6 whose targets are the successor
prices. -/
theorem processFeatures_count_width_target_witness :
    DP2.processFeatures (fun q => q) leakSeriesA =
      Except.ok (normalizeFeatures (fun q => q)
        (DP2.featureRows (fun q => q) leakSeriesA)) ∧
    (normalizeFeatures (fun q => q)
      (DP2.featureRows (fun q => q) leakSeriesA)).1.length =
        leakSeriesA.length - 15 ∧
    (∀ row ∈ (normalizeFeatures (fun q => q)
        (DP2.featureRows (fun q => q) leakSeriesA)).1,
      row.features.length = 6) ∧
    (∀ k, k < leakSeriesA.length - 15 →
      ((normalizeFeatures (fun q => q)
        (DP2.featureRows (fun q => q) leakSeriesA)).1.getD k default).target =
        (leakSeriesA.map RawPoint.price).getD (14 + k + 1) 0) :=
  processFeatures_count_width_target (fun q => q) leakSeriesA
    (by norm_num [leakSeriesA])

set_option maxHeartbeats 4000000 in
/-- Claim C1 refutation: the Scaler is NOT computed exclusively from the
training partition.  `leakSeriesA` and `leakSeriesB` differ only at raw
index 18, whose features reach only the last feature vector — a TEST vector
under the 0.8 split (train = vectors for i = 10..16, test = i = 17, 18).
The two runs therefore produce identical train partitions, yet their
pipeline Scalers disagree (shown on the momentum dimension's mean), because
`normalizeFeatures` runs inside `processFeatures` over the full vector set
BEFORE `splitData` — exactly the leak flagged in spec section 9.  The
statement is quantified over every square-root model `s`, so it holds for
whatever `Math.sqrt` computes. -/
theorem scaler_fit_uses_test_data (s : ℚ → ℚ) :
    (splitData (DP1.featureRows s leakSeriesA) (4/5)).1 =
      (splitData (DP1.featureRows s leakSeriesB) (4/5)).1 ∧
    scalerMean 2 (DP1.pipelineScaler s leakSeriesA) ≠
      scalerMean 2 (DP1.pipelineScaler s leakSeriesB) := by
  have hFA : DP1.featureRows s leakSeriesA =
      [⟨[1, 1, 0, s 0, 1, 50], 1, 1⟩, ⟨[1, 1, 0, s 0, 1, 50], 1, 1⟩,
       ⟨[1, 1, 0, s 0, 1, 50], 1, 1⟩, ⟨[1, 1, 0, s 0, 1, 50], 1, 1⟩,
       ⟨[1, 1, 0, s 0, 1, 10000/101], 1, 1⟩,
       ⟨[1, 1, 0, s 0, 1, 10000/101], 1, 1⟩,
       ⟨[1, 1, 0, s 0, 1, 10000/101], 1, 1⟩,
       ⟨[1, 1, 0, s 0, 1, 10000/101], 1, 1⟩,
       ⟨[1, 1, 0, s 0, 1, 10000/101], 1, 1⟩] := by
    norm_num [DP1.featureRows, DP1.calculateMovingAverageArray, DP1.maPass1,
      DP1.maPass2, DP1.calculateRSIArray, DP1.initialAvgs, DP1.rsiLoop,
      DP1.rsiUpdate, DP1.rsiValue, DP1.calculateMomentum,
      DP1.calculateVolatility, DP1.calculateVolumeRatio, leakSeriesA,
      List.range', List.range, List.replicate]
  have hFB : DP1.featureRows s leakSeriesB =
      [⟨[1, 1, 0, s 0, 1, 50], 1, 1⟩, ⟨[1, 1, 0, s 0, 1, 50], 1, 1⟩,
       ⟨[1, 1, 0, s 0, 1, 50], 1, 1⟩, ⟨[1, 1, 0, s 0, 1, 50], 1, 1⟩,
       ⟨[1, 1, 0, s 0, 1, 10000/101], 1, 1⟩,
       ⟨[1, 1, 0, s 0, 1, 10000/101], 1, 1⟩,
       ⟨[1, 1, 0, s 0, 1, 10000/101], 1, 1⟩,
       ⟨[1, 1, 0, s 0, 1, 10000/101], 2, 1⟩,
       ⟨[6/5, 11/10, 1, s (9/100), 1, 10000/101], 1, 2⟩] := by
    norm_num [DP1.featureRows, DP1.calculateMovingAverageArray, DP1.maPass1,
      DP1.maPass2, DP1.calculateRSIArray, DP1.initialAvgs, DP1.rsiLoop,
      DP1.rsiUpdate, DP1.rsiValue, DP1.calculateMomentum,
      DP1.calculateVolatility, DP1.calculateVolumeRatio, leakSeriesB,
      List.range', List.range, List.replicate]
  have h7 : (⌊((9 : ℕ) : ℚ) * (4/5)⌋).toNat = 7 := by
    have h : (⌊((9 : ℕ) : ℚ) * (4/5)⌋) = 7 := by norm_num
    rw [h]; rfl
  constructor
  · have hA : (splitData (DP1.featureRows s leakSeriesA) (4/5)).1 =
        (DP1.featureRows s leakSeriesA).take 7 := by
      have hlA : (DP1.featureRows s leakSeriesA).length = 9 := by
        rw [hFA]; rfl
      simp only [splitData, hlA, h7]
    have hB : (splitData (DP1.featureRows s leakSeriesB) (4/5)).1 =
        (DP1.featureRows s leakSeriesB).take 7 := by
      have hlB : (DP1.featureRows s leakSeriesB).length = 9 := by
        rw [hFB]; rfl
      simp only [splitData, hlB, h7]
    rw [hA, hB, hFA, hFB]
    rfl
  · have hr6 : List.range 6 = [0, 1, 2, 3, 4, 5] := rfl
    have hMA : scalerMean 2 (DP1.pipelineScaler s leakSeriesA) = 0 := by
      simp only [DP1.pipelineScaler, DP1.processFeatures]
      rw [if_neg (by norm_num [leakSeriesA])]
      rw [hFA]
      norm_num [scalerMean, normalizeFeatures, hr6]
    have hMB : scalerMean 2 (DP1.pipelineScaler s leakSeriesB) = 1/9 := by
      simp only [DP1.pipelineScaler, DP1.processFeatures]
      rw [if_neg (by norm_num [leakSeriesB])]
      rw [hFB]
      norm_num [scalerMean, normalizeFeatures, hr6]
    rw [hMA, hMB]
    norm_num

/-- Claim C2 refutation: training twice in one session (two `buildModel`
calls with no intervening `dispose`, exactly what two successive
`trainModel` runs perform, src/js/main.js line 141) reaches a state with
two live models — `buildModel` never disposes the previous model, so the
claimed invariant that at most one Model is live per session fails. -/
theorem buildModel_twice_two_live :
    (runBuilder initBuilder [BuilderOp.build, BuilderOp.build]).live = [0, 1] ∧
    (runBuilder initBuilder [BuilderOp.build, BuilderOp.build]).live.length = 2 :=
  ⟨rfl, rfl⟩

end CryptoML
